import Mathlib

/-!
Shallow embedding of the GlucoTwin repository (GDM risk prediction service).

Source files embedded:
* `src/app.py` — the Flask prediction service (`GDMPredictor`):
  `feature_columns`, `preprocess_input`, `sendFI`, `predict`.
* `src/python-scripts/dataset-shaper.py` — `process_gdm_data`.

JSON / pandas cell values are modelled by the inductive `Value`
(numbers as rationals, strings, and null/NaN).  A patient-data object
is an insertion-ordered association list `Row`.  Machine floats are
modelled by `ℚ`; `round(x, 2)` is modelled by round-half-to-even on
rationals, matching Python's rounding mode.
-/

namespace GlucoTwin

/-- A JSON / pandas cell value: a number, a string, or null (pandas `NaN`). -/
inductive Value where
  | num (q : ℚ)
  | str (s : String)
  | vnull
  deriving DecidableEq, Repr

/-- A patient-data object / a single dataframe row: insertion-ordered
association list from column name to cell value. -/
abbrev Row := List (String × Value)

/-- First-match lookup in a row (a Python `dict` access / dataframe column read). -/
def lookupRow (r : Row) (k : String) : Option Value :=
  r.lookup k

/-- `GDMPredictor.feature_columns` (src/app.py lines 28–33): the canonical
ordered list of the 14 model features. -/
def feature_columns : List String :=
  [ "oneHourGlucose", "bpSystolic", "bmiBaseline", "fastingBloodGlucose",
    "weightKg", "pulseHeartRate", "hypertensiveDisorders", "typeOfTreatment",
    "twoHourGlucose", "nationality", "ageYears", "bpDiastolic", "height",
    "weightGainDuringPregnancy" ]

/-- `numerical_columns` (src/app.py lines 105–109): the 11 numeric features. -/
def numerical_columns : List String :=
  [ "oneHourGlucose", "bpSystolic", "bmiBaseline", "fastingBloodGlucose",
    "weightKg", "pulseHeartRate", "twoHourGlucose", "ageYears",
    "bpDiastolic", "height", "weightGainDuringPregnancy" ]

/-- The `hypertensiveDisorders` lookup table (src/app.py lines 118–121). -/
def hypertensiveMap : List (String × ℚ) :=
  [ ("No", 0), ("no", 0), ("NO", 0), ("Nil", 0),
    ("Yes", 1), ("yes", 1), ("Yes ", 1) ]

/-- The `typeOfTreatment` lookup table (src/app.py lines 122–127). -/
def treatmentMap : List (String × ℚ) :=
  [ ("No Treatment", 0),
    ("Metformin", 1), ("metformin", 1), ("metformin ", 1),
    ("Metformin ", 1), ("MetFORMIN", 1),
    ("750, 500, 750", 2), ("yes 1000BD", 2), ("yes 500 od", 2), ("yes", 2) ]

/-- The `nationality` lookup table (src/app.py lines 128–134). -/
def nationalityMap : List (String × ℚ) :=
  [ ("UAE", 0), ("India", 1), ("Lebanon", 2), ("Sudan", 3),
    ("United States", 4), ("Comoros", 5), ("Oman", 6), ("Iran", 7),
    ("Philippenes", 8), ("United Kingdom", 9), ("Philippines", 8),
    ("Pakistan", 10), ("Bangladesh", 11), ("Egypt", 12), ("Jordan", 13),
    ("Syria", 14), ("Morocco", 15), ("Yemen", 16), ("Somalia", 17) ]

/-- Parse an unsigned decimal digit string to `(value, number-of-digits)`. -/
def parseDigits : List Char → Option (ℕ × ℕ)
  | [] => none
  | c :: cs =>
    if c.isDigit then
      match parseDigits cs with
      | none => if cs = [] then some (c.toNat - 48, 1) else none
      | some (v, n) => some ((c.toNat - 48) * 10 ^ n + v, n + 1)
    else none

/-- Parse a decimal string (optional sign, integer part, optional fractional
part) to a rational, as `pd.to_numeric` does for numeric strings; `none` for
anything unparseable. -/
def parseRat (s : String) : Option ℚ :=
  let cs := s.data
  let (sign, body) :=
    match cs with
    | '-' :: rest => ((-1 : ℚ), rest)
    | '+' :: rest => ((1 : ℚ), rest)
    | _ => ((1 : ℚ), cs)
  let intPart := body.takeWhile (·.isDigit)
  let rest := body.dropWhile (·.isDigit)
  match rest with
  | [] =>
    match parseDigits intPart with
    | some (v, _) => some (sign * v)
    | none => none
  | '.' :: frac =>
    if frac.all (·.isDigit) then
      match intPart, frac with
      | [], [] => none
      | _, _ =>
        let iv := (parseDigits intPart).map Prod.fst |>.getD 0
        let fv := (parseDigits frac).map Prod.fst |>.getD 0
        some (sign * ((iv : ℚ) + (fv : ℚ) / (10 : ℚ) ^ frac.length))
    else none
  | _ => none

/-- `pd.to_numeric(x, errors='coerce')` on a single cell: numbers pass
through, numeric strings parse, everything else becomes NaN (`none`). -/
def toNumericOpt : Value → Option ℚ
  | .num q => some q
  | .str s => parseRat s
  | .vnull => none

/-- `pd.to_numeric(x, errors='coerce').fillna(0)` on a single cell
(src/app.py line 112). -/
def coerceCell (v : Value) : Value :=
  .num ((toNumericOpt v).getD 0)

/-- `gdm_df[col].map(mapping).fillna(0)` on a single cell (src/app.py
line 140): a string found in the table maps to its entry; any other value
(unseen string, number, NaN) misses the string-keyed dict and becomes 0. -/
def catLookup (tbl : List (String × ℚ)) : Value → ℚ
  | .str s => (tbl.lookup s).getD 0
  | _ => 0

/-- Lines 97–102 of src/app.py: iterate over the identity `mapping` in its
(canonical) key order, copying each key present in `patient_data`. -/
def processedData (pd : Row) : Row :=
  feature_columns.filterMap (fun k => (lookupRow pd k).map (fun v => (k, v)))

/-- The effect of lines 110–112 of src/app.py on the cell of column `k`:
numeric coercion when `k` is a numerical column. -/
def numCoerceKey (k : String) (v : Value) : Value :=
  if k ∈ numerical_columns then coerceCell v else v

/-- Lines 110–112 of src/app.py: numeric coercion of every numerical column
present in the dataframe. -/
def coerceNumericCols (r : Row) : Row :=
  r.map (fun p => (p.1, numCoerceKey p.1 p.2))

/-- The effect of lines 137–140 of src/app.py on the cell of column `k`:
categorical recoding when `k` is one of the three categorical columns. -/
def catRecode (k : String) (v : Value) : Value :=
  if k = "hypertensiveDisorders" then .num (catLookup hypertensiveMap v)
  else if k = "typeOfTreatment" then .num (catLookup treatmentMap v)
  else if k = "nationality" then .num (catLookup nationalityMap v)
  else v

/-- Lines 137–140 of src/app.py: apply the three categorical lookup tables
to their columns when present. -/
def applyCategorical (r : Row) : Row :=
  r.map (fun p => (p.1, catRecode p.1 p.2))

/-- A cell after coercion/recoding, read as the number the model receives.
Every feature column is numerical or categorical, so at the point this is
applied, every cell is `Value.num`. -/
def cellQ : Value → ℚ
  | .num q => q
  | _ => 0

/-- Lines 142–148 of src/app.py: add every missing expected column as 0 and
select the 14 columns in canonical order. -/
def padAndSelect (r : Row) : List (String × ℚ) :=
  feature_columns.map (fun k =>
    match lookupRow r k with
    | some v => (k, cellQ v)
    | none => (k, 0))

/-- A loaded `StandardScaler` artifact: optionally the feature names it was
fit on (`feature_names_in_`), and its per-column affine transform
(`x ↦ (x - mean_i) / scale_i`, represented abstractly). -/
structure Scaler where
  featureNamesIn : Option (List String)
  transformAt : ℕ → ℚ → ℚ

/-- Line 154 of src/app.py: `hasattr(self.scaler, 'feature_names_in_') and
len(self.scaler.feature_names_in_) == len(self.feature_columns)`. -/
def scalerCount14 (sc : Scaler) : Bool :=
  match sc.featureNamesIn with
  | some ns => ns.length == feature_columns.length
  | none => false

/-- Lines 156–160 of src/app.py: `scaler.transform` over the full 14-column
dataframe — each column `i` scaled by the scaler's `i`-th recorded transform. -/
def scaleAll (sc : Scaler) (vec : List (String × ℚ)) : List (String × ℚ) :=
  vec.mapIdx (fun i p => (p.1, sc.transformAt i p.2))

/-- Lines 164–166 of src/app.py:
`gdm_df_copy[numerical_columns] = self.scaler.transform(gdm_df_copy[numerical_columns])` —
each numerical column scaled by the transform of its position within
`numerical_columns`; categorical columns untouched. -/
def scaleNumericOnly (sc : Scaler) (vec : List (String × ℚ)) : List (String × ℚ) :=
  vec.map (fun p =>
    match numerical_columns.findIdx? (fun c => c = p.1) with
    | some i => (p.1, sc.transformAt i p.2)
    | none => p)

/-- `GDMPredictor.preprocess_input` (src/app.py lines 74–177): key mapping,
numeric coercion, categorical recoding, column padding/ordering, then
optional scaling selected by the scaler's recorded feature count. -/
def preprocess_input (scaler : Option Scaler) (pd : Row) : List (String × ℚ) :=
  let r1 := processedData pd
  let r2 := coerceNumericCols r1
  let r3 := applyCategorical r2
  let vec := padAndSelect r3
  match scaler with
  | none => vec
  | some sc => if scalerCount14 sc then scaleAll sc vec else scaleNumericOnly sc vec

/-- Python's `round(x, 2)` uses round-half-to-even on the scaled value:
the integer nearest to `q`, ties going to the even integer. -/
def roundHalfEven (q : ℚ) : ℤ :=
  let f := ⌊q⌋
  if q - f < 1 / 2 then f
  else if 1 / 2 < q - f then f + 1
  else if f % 2 = 0 then f else f + 1

/-- `round(x, 2)` (src/app.py lines 227–228). -/
def round2 (q : ℚ) : ℚ :=
  (roundHalfEven (q * 100) : ℚ) / 100

/-- The JSON result object built by `GDMPredictor.predict`
(src/app.py lines 225–231). -/
structure PredResult where
  prediction : String
  confidence : ℚ
  gdm_probability : ℚ
  factors : List String
  model_version : String
  deriving DecidableEq, Repr

/-- A loaded classifier artifact (`model.pkl`): `predict` (first entry),
`predict_proba` (first entry), and the global `feature_importances_` vector. -/
structure ModelData where
  predictFn : List ℚ → ℤ
  predictProbaFn : List ℚ → List ℚ
  feature_importances : List ℚ

/-- The `GDMPredictor` service state after `__init__`: the optional loaded
model and optional loaded scaler (each `none` when its pickle file was
missing or unreadable). -/
structure Predictor where
  model : Option ModelData
  scaler : Option Scaler

/-- `GDMPredictor.sendFI` (src/app.py lines 179–189): pair every feature
name with the model's global importance score and sort descending by
importance; returns the `Features` column of the sorted frame. -/
def sendFI (m : ModelData) : List String :=
  ((feature_columns.zip m.feature_importances).mergeSort
      (fun a b => decide (b.2 ≤ a.2))).map Prod.fst

/-- The numeric feature vector handed to the model: the values of the
preprocessed dataframe row. -/
def featureVec (P : Predictor) (pd : Row) : List ℚ :=
  (preprocess_input P.scaler pd).map Prod.snd

/-- `GDMPredictor.predict` (src/app.py lines 191–237): fail when no model
is loaded; otherwise preprocess, run the model, compute confidence
(`max(proba) * 100`), GDM probability (`proba[1] * 100` when the probability
vector has more than one entry, else 0), the top-5 global importance
factors, and assemble the result object. -/
def predictorPredict (P : Predictor) (pd : Row) : Except String PredResult :=
  match P.model with
  | none => .error "Model is not loaded, maybe model.pkl does not exist in your dir"
  | some m =>
    let vec := featureVec P pd
    let prediction := m.predictFn vec
    let proba := m.predictProbaFn vec
    match proba.max? with
    | none => .error "Prediction failed: max() arg is an empty sequence"
    | some mx =>
      let confidence := mx * 100
      let gdm_probability := if 1 < proba.length then (proba[1]?.getD 0) * 100 else 0
      let FS := (sendFI m).take 5
      .ok { prediction := if prediction = 1 then "GDM Risk" else "No GDM Risk"
            confidence := round2 confidence
            gdm_probability := round2 gdm_probability
            factors := FS
            model_version := "1.0" }

/-! ## The data shaper (src/python-scripts/dataset-shaper.py) -/

/-- A pandas dataframe as read from one spreadsheet sheet: a list of column
names and the rows, each row a list of cells positionally aligned with the
columns. -/
structure Sheet where
  cols : List String
  rows : List (List Value)
  deriving DecidableEq, Repr

/-- `columns_to_remove` (dataset-shaper.py lines 56–63). -/
def columns_to_remove : List String :=
  [ "socioeconomic status",
    "Mode of Delivery",
    "HbA1c Levels at Delivery:",
    "HbA1c Levels at Diagnosis (if using insulin):",
    "Gestational Age at Diagnosis of GDM (Months)",
    "Patients" ]

/-- Keep only the columns satisfying `p`, dropping the matching cells of
every row (a pandas column selection). -/
def selectColsBy (p : String → Bool) (s : Sheet) : Sheet :=
  { cols := s.cols.filter p
    rows := s.rows.map (fun row => ((s.cols.zip row).filter (fun cv => p cv.1)).map Prod.snd) }

/-- Lines 41–42: `columns.astype(str).str.strip()`. -/
def stripColNames (s : Sheet) : Sheet :=
  { s with cols := s.cols.map String.trim }

/-- Lines 45–46: drop columns whose name matches `^Unnamed`. -/
def dropUnnamed (s : Sheet) : Sheet :=
  selectColsBy (fun c => !c.startsWith "Unnamed") s

/-- Lines 66–77: drop every column whose stripped name equals a stripped
entry of `columns_to_remove`. -/
def removeListedCols (s : Sheet) : Sheet :=
  selectColsBy (fun c => !columns_to_remove.any (fun col => c.trim == col.trim)) s

/-- The shaper's per-sheet cleaning: strip names, drop `Unnamed` columns,
drop the listed columns. -/
def cleanSheet (s : Sheet) : Sheet :=
  removeListedCols (dropUnnamed (stripColNames s))

/-- Lines 81–82: give the NGDM sheet a constant `'No Treatment'` column when
it lacks one. -/
def addTreatment (s : Sheet) : Sheet :=
  if "Type of treatment" ∈ s.cols then s
  else { cols := s.cols ++ ["Type of treatment"]
         rows := s.rows.map (fun row => row ++ [.str "No Treatment"]) }

/-- Lines 89–91: `list(set(gdm.columns) & set(ngdm.columns))`.  Python's set
iteration order is unspecified; we fix the order of first appearance in the
GDM sheet, which no claim depends on. -/
def commonCols (g n : Sheet) : List String :=
  (g.cols.filter (fun c => n.cols.contains c)).dedup

/-- Read the cell of column `c` from a positionally aligned row. -/
def lookupCell (cols : List String) (row : List Value) (c : String) : Option Value :=
  (cols.zip row).lookup c

/-- One row of `df[common]` (lines 97–98): the cells of the common columns,
in the common order. -/
def reindexRow (cols common : List String) (row : List Value) : List Value :=
  common.map (fun c => (lookupCell cols row c).getD .vnull)

/-- `df[common].copy()` (lines 97–98). -/
def reindexSheet (common : List String) (s : Sheet) : Sheet :=
  { cols := common, rows := s.rows.map (reindexRow s.cols common) }

/-- One row after `df['GDM'] = label` (lines 101–102): overwrite in place
when a `GDM` column exists, else append it. -/
def labeledRow (cols : List String) (lbl : Value) (row : List Value) : List Value :=
  if "GDM" ∈ cols then (cols.zip row).map (fun cv => if cv.1 = "GDM" then lbl else cv.2)
  else row ++ [lbl]

/-- `df['GDM'] = label` (lines 101–102). -/
def setGDM (lbl : Value) (s : Sheet) : Sheet :=
  { cols := if "GDM" ∈ s.cols then s.cols else s.cols ++ ["GDM"]
    rows := s.rows.map (labeledRow s.cols lbl) }

/-- Lines 111–114: `pd.concat([ngdm_common, gdm_common], ignore_index=True)`;
both frames have identical columns by construction. -/
def concatSheets (a b : Sheet) : Sheet :=
  { cols := a.cols, rows := a.rows ++ b.rows }

/-- The pure core of `process_gdm_data` (dataset-shaper.py lines 40–114):
clean both sheets, add the treatment column to NGDM, restrict both to the
common columns, label (GDM = 1, NGDM = 0) and concatenate NGDM-then-GDM. -/
def shapeSheets (gdm ngdm : Sheet) : Sheet :=
  let g1 := cleanSheet gdm
  let n2 := addTreatment (cleanSheet ngdm)
  let common := commonCols g1 n2
  concatSheets (setGDM (.num 0) (reindexSheet common n2))
               (setGDM (.num 1) (reindexSheet common g1))

/-- The observable input of one `process_gdm_data` invocation: the file may
be missing (line 15), reading or processing may raise (caught at line 132),
or both sheets are read successfully. -/
inductive ShaperInput where
  | missing
  | readError (e : String)
  | sheets (gdm ngdm : Sheet)

/-- The observable outcome: the returned boolean and the CSV contents
written by `to_csv`, `none` when no output file was produced. -/
structure ShaperOutcome where
  success : Bool
  output : Option Sheet
  deriving DecidableEq

/-- `process_gdm_data` (dataset-shaper.py lines 4–134): a missing file
returns `False` before any write; an exception while reading or processing
is caught and returns `False` with nothing written (the `to_csv` at line
117 is only reached after all processing succeeded); otherwise the shaped
CSV is written and `True` returned. -/
def process_gdm_data : ShaperInput → ShaperOutcome
  | .missing => ⟨false, none⟩
  | .readError _ => ⟨false, none⟩
  | .sheets gdm ngdm => ⟨true, some (shapeSheets gdm ngdm)⟩

/-! ## Witness fixtures: concrete inputs used to instantiate the theorems -/

/-- A complete patient-data object: all 14 canonical keys, numeric values. -/
def wpdFull : Row :=
  [ ("oneHourGlucose", .num 130), ("bpSystolic", .num 120),
    ("bmiBaseline", .num 24), ("fastingBloodGlucose", .num 92),
    ("weightKg", .num 70), ("pulseHeartRate", .num 80),
    ("hypertensiveDisorders", .num 0), ("typeOfTreatment", .num 0),
    ("twoHourGlucose", .num 110), ("nationality", .num 1),
    ("ageYears", .num 30), ("bpDiastolic", .num 75),
    ("height", .num 165), ("weightGainDuringPregnancy", .num 9) ]

/-- A second, dissimilar patient-data object (string-typed fields). -/
def wpdOther : Row :=
  [ ("ageYears", .str "41"), ("nationality", .str "Egypt"),
    ("hypertensiveDisorders", .str "Yes"), ("typeOfTreatment", .str "yes"),
    ("weightKg", .str "not-a-number") ]

/-- A concrete loaded model used by witnesses: constant predictions and a
fixed importance vector. -/
def wModel : ModelData :=
  { predictFn := fun _ => 1
    predictProbaFn := fun _ => [3/10, 7/10]
    feature_importances := [5, 1, 9, 2, 14, 3, 7, 4, 11, 6, 13, 8, 12, 10] }

/-- A predictor with the model loaded and no scaler. -/
def wPredictor : Predictor :=
  { model := some wModel, scaler := none }

/-- A concrete scaler recording 14 feature names. -/
def wScaler14 : Scaler :=
  { featureNamesIn := some feature_columns
    transformAt := fun _ q => q * 2 - 1 }

/-- A concrete scaler recording no feature names. -/
def wScalerNone : Scaler :=
  { featureNamesIn := none
    transformAt := fun _ q => q + 3 }

/-- A patient-data object whose three categorical fields carry a string
found in none of the lookup tables. -/
def wpdUnseen : Row :=
  [ ("hypertensiveDisorders", .str "Atlantis"),
    ("typeOfTreatment", .str "Atlantis"),
    ("nationality", .str "Atlantis") ]

/-- A patient-data object whose categorical fields are already
integer-encoded. -/
def wpdPreEncoded : Row :=
  [ ("hypertensiveDisorders", .num 1),
    ("typeOfTreatment", .num 2),
    ("nationality", .num 3) ]

/-- A small GDM sheet: an ID column to drop, one feature, a treatment
column, two rows. -/
def wGdm : Sheet :=
  { cols := ["Patients", "ageYears", "Type of treatment"]
    rows := [ [.num 1, .num 30, .str "Metformin"],
              [.num 2, .num 35, .str "yes"] ] }

/-- A small NGDM sheet: one feature, a placeholder column to drop, one row,
no treatment column. -/
def wNgdm : Sheet :=
  { cols := ["ageYears", "Unnamed: 2"]
    rows := [ [.num 25, .vnull] ] }

/-! ## Association-list helper lemmas -/

theorem lookup_map_keyval (f : String → Value → Value) (r : Row) (k : String) :
    (r.map (fun p => (p.1, f p.1 p.2))).lookup k = (r.lookup k).map (f k) := by
  induction r with
  | nil => rfl
  | cons p t ih =>
    by_cases h : k = p.1
    · have hbeq : (k == p.1) = true := beq_iff_eq.mpr h
      subst h
      simp [List.lookup, hbeq]
    · have hbeq : (k == p.1) = false := beq_eq_false_iff_ne.mpr h
      simp [List.lookup, hbeq, ih]

theorem lookup_map_keyfun (ks : List String) (g : String → ℚ) (k : String)
    (h : k ∈ ks) : (ks.map (fun x => (x, g x))).lookup k = some (g k) := by
  induction ks with
  | nil => cases h
  | cons c t ih =>
    by_cases hc : k = c
    · have hbeq : (k == c) = true := beq_iff_eq.mpr hc
      subst hc
      simp [List.lookup, hbeq]
    · have hbeq : (k == c) = false := beq_eq_false_iff_ne.mpr hc
      have hmem : k ∈ t := by
        rcases List.mem_cons.mp h with h' | h'
        · exact absurd h' hc
        · exact h'
      simp [List.lookup, hbeq, ih hmem]

theorem lookup_filterMap_keys (ks : List String) (h : String → Option Value)
    (k : String) :
    (ks.filterMap (fun x => (h x).map (fun v => (x, v)))).lookup k =
      if k ∈ ks then h k else none := by
  induction ks with
  | nil => simp
  | cons c t ih =>
    by_cases hkc : k = c
    · subst hkc
      rcases hc : h k with _ | v
      · rw [List.filterMap_cons]
        simp only [hc, Option.map_none']
        rw [ih]
        by_cases hkt : k ∈ t <;> simp [hkt, hc]
      · rw [List.filterMap_cons]
        simp only [hc, Option.map_some']
        have hbeq : (k == k) = true := beq_iff_eq.mpr rfl
        simp [List.lookup, hbeq, hc]
    · have hbeq : (k == c) = false := beq_eq_false_iff_ne.mpr hkc
      rcases hc : h c with _ | v
      · rw [List.filterMap_cons]
        simp only [hc, Option.map_none']
        rw [ih]
        simp [List.mem_cons, hkc]
      · rw [List.filterMap_cons]
        simp only [hc, Option.map_some']
        simp [List.lookup, hbeq, ih, List.mem_cons, hkc]

theorem lookup_processedData (pd : Row) (k : String) :
    (processedData pd).lookup k =
      if k ∈ feature_columns then lookupRow pd k else none := by
  unfold processedData
  exact lookup_filterMap_keys feature_columns (lookupRow pd) k

theorem processedData_ext (pd pd' : Row)
    (h : ∀ k : String, lookupRow pd' k = lookupRow pd k) :
    processedData pd' = processedData pd := by
  unfold processedData
  induction feature_columns with
  | nil => rfl
  | cons c t ih => simp [List.filterMap_cons, h c, ih]

theorem map_fst_padAndSelect (r : Row) :
    (padAndSelect r).map Prod.fst = feature_columns := by
  unfold padAndSelect
  rw [List.map_map]
  have hfun : (Prod.fst ∘ fun k => match lookupRow r k with
      | some v => (k, cellQ v)
      | none => (k, (0 : ℚ))) = id := by
    funext k
    rcases hv : lookupRow r k with _ | v <;> simp [hv]
  rw [hfun, List.map_id]

theorem map_fst_scaleAll (sc : Scaler) (vec : List (String × ℚ)) :
    (scaleAll sc vec).map Prod.fst = vec.map Prod.fst := by
  unfold scaleAll
  rw [List.mapIdx_eq_enum_map, List.map_map]
  have hfun : (Prod.fst ∘ Function.uncurry fun i (p : String × ℚ) =>
      (p.1, sc.transformAt i p.2)) = Prod.fst ∘ Prod.snd := rfl
  rw [hfun, ← List.map_map, List.enum_map_snd]

theorem map_fst_scaleNumericOnly (sc : Scaler) (vec : List (String × ℚ)) :
    (scaleNumericOnly sc vec).map Prod.fst = vec.map Prod.fst := by
  unfold scaleNumericOnly
  rw [List.map_map]
  refine List.map_congr_left (fun p _ => ?_)
  rcases h : numerical_columns.findIdx? (fun c => c = p.1) with _ | i <;> simp [h]

theorem preprocess_none_eq (pd : Row) :
    preprocess_input none pd =
      padAndSelect (applyCategorical (coerceNumericCols (processedData pd))) := rfl

theorem preprocess_none_lookup (pd : Row) (col : String)
    (h : col ∈ feature_columns) :
    (preprocess_input none pd).lookup col =
      some (match lookupRow pd col with
            | some v => cellQ (catRecode col (numCoerceKey col v))
            | none => 0) := by
  rw [preprocess_none_eq]
  unfold padAndSelect
  have hsel := lookup_map_keyfun feature_columns
    (fun k => match lookupRow (applyCategorical (coerceNumericCols (processedData pd))) k with
              | some v => cellQ v
              | none => 0) col h
  have hshape : (feature_columns.map fun k =>
      match lookupRow (applyCategorical (coerceNumericCols (processedData pd))) k with
      | some v => (k, cellQ v)
      | none => (k, (0 : ℚ))) = feature_columns.map (fun k =>
      (k, match lookupRow (applyCategorical (coerceNumericCols (processedData pd))) k with
          | some v => cellQ v
          | none => 0)) := by
    refine List.map_congr_left (fun k _ => ?_)
    rcases hv : lookupRow (applyCategorical (coerceNumericCols (processedData pd))) k
      with _ | v <;> simp [hv]
  rw [hshape, hsel]
  have hchain : lookupRow (applyCategorical (coerceNumericCols (processedData pd))) col =
      (lookupRow pd col).map (fun v => catRecode col (numCoerceKey col v)) := by
    show (applyCategorical (coerceNumericCols (processedData pd))).lookup col = _
    unfold applyCategorical coerceNumericCols
    rw [lookup_map_keyval, lookup_map_keyval]
    have hp : (processedData pd).lookup col = lookupRow pd col := by
      rw [lookup_processedData, if_pos h]
    rw [hp]
    rcases hv : lookupRow pd col with _ | v <;> simp [hv]
  simp only [hchain]
  rcases hv : lookupRow pd col with _ | v <;> simp [hv]

/-! ## Claim theorems -/

/-- C1.  For every patient-data object in which all 14 canonical keys are
present with numeric values, `preprocess_input` returns a feature vector
with exactly 14 columns in the fixed canonical order, regardless of the
order in which the input keys are given: the column-name list of the output
is exactly `feature_columns`, the output has 14 entries, and the output
depends on the input object only through key lookup, never through key
order. -/
theorem preprocess_columns_canonical (scaler : Option Scaler) (pd : Row)
    (hall : ∀ k ∈ feature_columns, ∃ q : ℚ, lookupRow pd k = some (.num q)) :
    ((preprocess_input scaler pd).map Prod.fst = feature_columns ∧
      (preprocess_input scaler pd).length = 14) ∧
    ∀ pd' : Row, (∀ k : String, lookupRow pd' k = lookupRow pd k) →
      preprocess_input scaler pd' = preprocess_input scaler pd := by
  have hcols : ∀ (s : Option Scaler) (x : Row),
      (preprocess_input s x).map Prod.fst = feature_columns := by
    intro s x
    rcases s with _ | sc
    · rw [preprocess_none_eq, map_fst_padAndSelect]
    · show ((if scalerCount14 sc then scaleAll sc (padAndSelect _)
        else scaleNumericOnly sc (padAndSelect _)).map Prod.fst) = _
      by_cases hc : scalerCount14 sc
      · rw [if_pos hc, map_fst_scaleAll, map_fst_padAndSelect]
      · rw [if_neg hc, map_fst_scaleNumericOnly, map_fst_padAndSelect]
  refine ⟨⟨hcols scaler pd, ?_⟩, fun pd' hext => ?_⟩
  · have := congrArg List.length (hcols scaler pd)
    simpa using this
  · have hpproc : processedData pd' = processedData pd := processedData_ext pd pd' hext
    unfold preprocess_input
    rw [hpproc]

/-- Witness for C1: the complete numeric patient object `wpdFull` satisfies
the hypothesis, and its preprocessed vector has the 14 canonical columns in
order. -/
theorem preprocess_columns_canonical_witness :
    (preprocess_input none wpdFull).map Prod.fst = feature_columns ∧
    (preprocess_input none wpdFull).length = 14 :=
  (preprocess_columns_canonical none wpdFull (by
    intro k hk
    simp only [feature_columns] at hk
    fin_cases hk <;> exact ⟨_, rfl⟩)).1

/-- Helper: a categorical recode of a zero numeric cell is zero, whatever
the column is. -/
theorem cellQ_catRecode_num_zero (col : String) :
    cellQ (catRecode col (.num 0)) = 0 := by
  unfold catRecode
  split_ifs <;> simp [catLookup, cellQ]

/-- C2.  Every string value not present in a categorical lookup table —
including the empty string — is mapped to 0 by `preprocess_input`, and for
the hypertension table this equals the lookup of the explicit negative
value `"No"`: `lookup("anything-unseen") = lookup("No") = 0`. -/
theorem preprocess_unseen_categorical_zero (pd : Row) (s : String) :
    (hypertensiveMap.lookup s = none →
      catLookup hypertensiveMap (.str s) = catLookup hypertensiveMap (.str "No") ∧
      catLookup hypertensiveMap (.str s) = 0) ∧
    (lookupRow pd "hypertensiveDisorders" = some (.str s) →
      hypertensiveMap.lookup s = none →
      (preprocess_input none pd).lookup "hypertensiveDisorders" = some 0) ∧
    (lookupRow pd "typeOfTreatment" = some (.str s) →
      treatmentMap.lookup s = none →
      (preprocess_input none pd).lookup "typeOfTreatment" = some 0) ∧
    (lookupRow pd "nationality" = some (.str s) →
      nationalityMap.lookup s = none →
      (preprocess_input none pd).lookup "nationality" = some 0) ∧
    (hypertensiveMap.lookup "" = none ∧ treatmentMap.lookup "" = none ∧
      nationalityMap.lookup "" = none) := by
  refine ⟨fun hn => ?_, fun hv hn => ?_, fun hv hn => ?_, fun hv hn => ?_,
    by decide, by decide, by decide⟩
  · have h0 : catLookup hypertensiveMap (.str s) = 0 := by simp [catLookup, hn]
    exact ⟨by rw [h0]; rfl, h0⟩
  · rw [preprocess_none_lookup pd _ (by decide), hv]
    have hnum : "hypertensiveDisorders" ∉ numerical_columns := by decide
    simp [numCoerceKey, hnum, catRecode, catLookup, hn, cellQ]
  · rw [preprocess_none_lookup pd _ (by decide), hv]
    have hnum : "typeOfTreatment" ∉ numerical_columns := by decide
    simp [numCoerceKey, hnum, catRecode, catLookup, hn, cellQ]
  · rw [preprocess_none_lookup pd _ (by decide), hv]
    have hnum : "nationality" ∉ numerical_columns := by decide
    simp [numCoerceKey, hnum, catRecode, catLookup, hn, cellQ]

/-- Witness for C2: the unseen string `"Atlantis"` behaves like `"No"` in
the hypertension table and all three categorical fields of `wpdUnseen`
preprocess to 0. -/
theorem preprocess_unseen_categorical_zero_witness :
    catLookup hypertensiveMap (.str "Atlantis") = catLookup hypertensiveMap (.str "No") ∧
    (preprocess_input none wpdUnseen).lookup "hypertensiveDisorders" = some 0 ∧
    (preprocess_input none wpdUnseen).lookup "typeOfTreatment" = some 0 ∧
    (preprocess_input none wpdUnseen).lookup "nationality" = some 0 :=
  ⟨((preprocess_unseen_categorical_zero wpdUnseen "Atlantis").1 rfl).1,
   (preprocess_unseen_categorical_zero wpdUnseen "Atlantis").2.1 rfl rfl,
   (preprocess_unseen_categorical_zero wpdUnseen "Atlantis").2.2.1 rfl rfl,
   (preprocess_unseen_categorical_zero wpdUnseen "Atlantis").2.2.2.1 rfl rfl⟩

/-- C6.  A missing canonical key yields 0 in its column of the final
feature vector, and an unparseable value in a numeric field coerces to 0;
`preprocess_input` is total (it never raises on such inputs). -/
theorem preprocess_missing_or_unparseable_zero (pd : Row) (col : String) :
    (col ∈ feature_columns → lookupRow pd col = none →
      (preprocess_input none pd).lookup col = some 0) ∧
    (col ∈ numerical_columns → ∀ s : String, lookupRow pd col = some (.str s) →
      parseRat s = none → (preprocess_input none pd).lookup col = some 0) := by
  refine ⟨fun h1 hnone => ?_, fun h2 s hv hp => ?_⟩
  · rw [preprocess_none_lookup pd col h1, hnone]
  · have hsub : ∀ x ∈ numerical_columns, x ∈ feature_columns := by decide
    rw [preprocess_none_lookup pd col (hsub col h2), hv]
    have hcoerce : numCoerceKey col (.str s) = .num 0 := by
      simp [numCoerceKey, h2, coerceCell, toNumericOpt, hp]
    simp only [hcoerce, cellQ_catRecode_num_zero]

/-- Witness for C6: `wpdOther` is missing `height` and carries the
unparseable string `"not-a-number"` in `weightKg`; both columns come out 0. -/
theorem preprocess_missing_or_unparseable_zero_witness :
    (preprocess_input none wpdOther).lookup "height" = some 0 ∧
    (preprocess_input none wpdOther).lookup "weightKg" = some 0 :=
  ⟨(preprocess_missing_or_unparseable_zero wpdOther "height").1 (by decide) rfl,
   (preprocess_missing_or_unparseable_zero wpdOther "weightKg").2 (by decide)
     "not-a-number" rfl (by decide)⟩

/-- C10.  A non-string value (e.g. an already-integer-encoded category) in
any of the three categorical fields is mapped to 0 by `preprocess_input`,
exactly as an unseen string is. -/
theorem preprocess_nonstring_categorical_zero (pd : Row) (col : String) (q : ℚ)
    (hcol : col = "hypertensiveDisorders" ∨ col = "typeOfTreatment" ∨
      col = "nationality")
    (hv : lookupRow pd col = some (.num q)) :
    (preprocess_input none pd).lookup col = some 0 := by
  have hfc : col ∈ feature_columns := by
    rcases hcol with h | h | h <;> subst h <;> decide
  rw [preprocess_none_lookup pd col hfc, hv]
  have hcoerce : numCoerceKey col (.num q) = .num q := by
    have hnum : col ∉ numerical_columns := by
      rcases hcol with h | h | h <;> subst h <;> decide
    simp [numCoerceKey, hnum]
  simp only [hcoerce]
  rcases hcol with h | h | h <;> subst h <;> simp [catRecode, catLookup, cellQ]

/-- Witness for C10: the integer-encoded categorical values of
`wpdPreEncoded` (1, 2, 3) all preprocess to 0. -/
theorem preprocess_nonstring_categorical_zero_witness :
    (preprocess_input none wpdPreEncoded).lookup "hypertensiveDisorders" = some 0 ∧
    (preprocess_input none wpdPreEncoded).lookup "typeOfTreatment" = some 0 ∧
    (preprocess_input none wpdPreEncoded).lookup "nationality" = some 0 :=
  ⟨preprocess_nonstring_categorical_zero wpdPreEncoded _ 1 (Or.inl rfl) rfl,
   preprocess_nonstring_categorical_zero wpdPreEncoded _ 2 (Or.inr (Or.inl rfl)) rfl,
   preprocess_nonstring_categorical_zero wpdPreEncoded _ 3 (Or.inr (Or.inr rfl)) rfl⟩

/-- C5.  For every patient-data object, calling `predict` when no model is
loaded returns the "not loaded" error, for every scaler state; it never
returns a prediction result. -/
theorem predict_no_model_errors (sc : Option Scaler) (pd : Row) :
    predictorPredict { model := none, scaler := sc } pd =
      .error "Model is not loaded, maybe model.pkl does not exist in your dir" := rfl

/-- Helper: the round-half-even of a nonnegative rational is nonnegative. -/
theorem roundHalfEven_nonneg (q : ℚ) (h : 0 ≤ q) : 0 ≤ roundHalfEven q := by
  have hf : (0 : ℤ) ≤ ⌊q⌋ := Int.floor_nonneg.mpr h
  simp only [roundHalfEven]
  split_ifs <;> omega

/-- Helper: round-half-even never exceeds an integer upper bound. -/
theorem roundHalfEven_le (q : ℚ) (N : ℤ) (h : q ≤ (N : ℚ)) :
    roundHalfEven q ≤ N := by
  have hfl : ⌊q⌋ ≤ N := by
    have := Int.floor_le_floor h
    simpa using this
  simp only [roundHalfEven]
  split_ifs with h1 h2 h3
  · exact hfl
  · have hlt : (⌊q⌋ : ℚ) < q := by linarith
    have hltN : ⌊q⌋ < N := by
      by_contra hcon
      have hEq : ⌊q⌋ = N := le_antisymm hfl (by omega)
      rw [hEq] at hlt
      linarith
    omega
  · exact hfl
  · have hlt : (⌊q⌋ : ℚ) < q := by
      have hge : 1 / 2 ≤ q - ⌊q⌋ := le_of_not_lt h1
      linarith
    have hltN : ⌊q⌋ < N := by
      by_contra hcon
      have hEq : ⌊q⌋ = N := le_antisymm hfl (by omega)
      rw [hEq] at hlt
      linarith
    omega

/-- Helper: `round2` of a value in `[0, 100]` stays in `[0, 100]` and is an
integer multiple of `1/100`. -/
theorem round2_bounds (q : ℚ) (h0 : 0 ≤ q) (h1 : q ≤ 100) :
    0 ≤ round2 q ∧ round2 q ≤ 100 ∧ ∃ n : ℤ, round2 q = (n : ℚ) / 100 := by
  have h0' : (0 : ℤ) ≤ roundHalfEven (q * 100) := roundHalfEven_nonneg _ (by linarith)
  have h1' : roundHalfEven (q * 100) ≤ 10000 := by
    refine roundHalfEven_le _ 10000 ?_
    push_cast
    linarith
  unfold round2
  refine ⟨div_nonneg (by exact_mod_cast h0') (by norm_num), ?_, ⟨_, rfl⟩⟩
  rw [div_le_iff₀ (by norm_num : (0 : ℚ) < 100)]
  calc (roundHalfEven (q * 100) : ℚ) ≤ 10000 := by exact_mod_cast h1'
    _ = 100 * 100 := by norm_num

/-- C3.  For any two patient-data inputs processed by the same loaded
model, the `factors` lists of the two prediction results are identical:
the ranking is the model's global feature-importance ranking and does not
depend on the patient input. -/
theorem predict_factors_input_independent (P : Predictor) (pd1 pd2 : Row)
    (r1 r2 : PredResult)
    (h1 : predictorPredict P pd1 = .ok r1)
    (h2 : predictorPredict P pd2 = .ok r2) :
    r1.factors = r2.factors := by
  rcases hm : P.model with _ | m
  · simp only [predictorPredict, hm] at h1
    cases h1
  · simp only [predictorPredict, hm] at h1 h2
    rcases hmx1 : (m.predictProbaFn (featureVec P pd1)).max? with _ | mx1
    · rw [hmx1] at h1; cases h1
    · rcases hmx2 : (m.predictProbaFn (featureVec P pd2)).max? with _ | mx2
      · rw [hmx2] at h2; cases h2
      · rw [hmx1] at h1
        rw [hmx2] at h2
        injection h1 with h1'
        injection h2 with h2'
        subst h1'
        subst h2'
        rfl

/-- Witness for C3: two dissimilar valid inputs to the same loaded
predictor return the same `factors` list. -/
theorem predict_factors_input_independent_witness :
    ∃ r1 r2 : PredResult,
      predictorPredict wPredictor wpdFull = .ok r1 ∧
      predictorPredict wPredictor wpdOther = .ok r2 ∧
      r1.factors = r2.factors :=
  ⟨_, _, rfl, rfl,
    predict_factors_input_independent wPredictor wpdFull wpdOther _ _ rfl rfl⟩

/-- C4.  Whenever the model's class-probability vector at the processed
input has entries in `[0, 1]`, the returned confidence and GDM probability
lie in `[0, 100]` and are rounded to 2 decimal places (integer multiples
of `1/100`). -/
theorem predict_outputs_bounded (P : Predictor) (pd : Row) (r : PredResult)
    (hprob : ∀ m : ModelData, P.model = some m →
      ∀ p ∈ m.predictProbaFn (featureVec P pd), 0 ≤ p ∧ p ≤ 1)
    (hok : predictorPredict P pd = .ok r) :
    (0 ≤ r.confidence ∧ r.confidence ≤ 100 ∧
      ∃ n : ℤ, r.confidence = (n : ℚ) / 100) ∧
    (0 ≤ r.gdm_probability ∧ r.gdm_probability ≤ 100 ∧
      ∃ n : ℤ, r.gdm_probability = (n : ℚ) / 100) := by
  rcases hm : P.model with _ | m
  · simp only [predictorPredict, hm] at hok
    cases hok
  · simp only [predictorPredict, hm] at hok
    rcases hmx : (m.predictProbaFn (featureVec P pd)).max? with _ | mx
    · rw [hmx] at hok; cases hok
    · rw [hmx] at hok
      injection hok with hok'
      subst hok'
      have hmem : mx ∈ m.predictProbaFn (featureVec P pd) :=
        List.max?_mem (fun a b => max_choice a b) hmx
      have hmx01 : 0 ≤ mx ∧ mx ≤ 1 := hprob m hm mx hmem
      constructor
      · exact round2_bounds _ (by linarith [hmx01.1]) (by linarith [hmx01.2])
      · by_cases hlen : 1 < (m.predictProbaFn (featureVec P pd)).length
        · have hget : (m.predictProbaFn (featureVec P pd))[1]? =
              some ((m.predictProbaFn (featureVec P pd)).get ⟨1, hlen⟩) :=
            List.getElem?_eq_getElem hlen
          have hp1 : (m.predictProbaFn (featureVec P pd)).get ⟨1, hlen⟩ ∈
              m.predictProbaFn (featureVec P pd) := List.get_mem _ _ _
          have hb := hprob m hm _ hp1
          simp only [if_pos hlen, hget, Option.getD_some]
          exact round2_bounds _ (by linarith [hb.1]) (by linarith [hb.2])
        · simp only [if_neg hlen]
          exact round2_bounds 0 le_rfl (by norm_num)

/-- Witness for C4: the loaded witness predictor, whose probability vector
is `[0.3, 0.7]`, returns bounded, 2-decimal outputs on `wpdFull`. -/
theorem predict_outputs_bounded_witness :
    ∃ r : PredResult,
      predictorPredict wPredictor wpdFull = .ok r ∧
      ((0 ≤ r.confidence ∧ r.confidence ≤ 100 ∧
        ∃ n : ℤ, r.confidence = (n : ℚ) / 100) ∧
       (0 ≤ r.gdm_probability ∧ r.gdm_probability ≤ 100 ∧
        ∃ n : ℤ, r.gdm_probability = (n : ℚ) / 100)) := by
  refine ⟨_, rfl, predict_outputs_bounded wPredictor wpdFull _ ?_ rfl⟩
  intro m hm p hp
  injection hm with hm'
  subst hm'
  have hp2 : p = 3 / 10 ∨ p = 7 / 10 := by simpa [wModel] using hp
  rcases hp2 with rfl | rfl <;> norm_num

/-- C7.  With a loaded scaler, scaling is applied to all 14 columns exactly
when the scaler's recorded input feature count equals 14, and otherwise to
the numeric-only subset; with no scaler the unscaled 14-column vector is
returned unchanged (the `none` case of `preprocess_input` is the bare
pipeline). -/
theorem preprocess_scaler_selection (sc : Scaler) (pd : Row) :
    (scalerCount14 sc = true ↔
      ∃ ns : List String, sc.featureNamesIn = some ns ∧ ns.length = 14) ∧
    (scalerCount14 sc = true →
      preprocess_input (some sc) pd = scaleAll sc (preprocess_input none pd)) ∧
    (scalerCount14 sc = false →
      preprocess_input (some sc) pd =
        scaleNumericOnly sc (preprocess_input none pd)) := by
  refine ⟨?_, fun hc => ?_, fun hc => ?_⟩
  · unfold scalerCount14
    rcases h : sc.featureNamesIn with _ | ns
    · simp
    · constructor
      · intro hb
        refine ⟨ns, rfl, ?_⟩
        have : ns.length = feature_columns.length := by simpa using hb
        simpa using this
      · rintro ⟨ns', hns', hlen⟩
        injection hns' with he
        subst he
        simp [hlen]
        rfl
  · simp only [preprocess_input]
    rw [if_pos hc]
  · simp only [preprocess_input]
    rw [if_neg (by simp [hc])]

/-- Witness for C7: a scaler recording 14 feature names scales all columns;
a scaler recording none scales only the numeric subset. -/
theorem preprocess_scaler_selection_witness :
    preprocess_input (some wScaler14) wpdFull =
      scaleAll wScaler14 (preprocess_input none wpdFull) ∧
    preprocess_input (some wScalerNone) wpdFull =
      scaleNumericOnly wScalerNone (preprocess_input none wpdFull) :=
  ⟨(preprocess_scaler_selection wScaler14 wpdFull).2.1 rfl,
   (preprocess_scaler_selection wScalerNone wpdFull).2.2 rfl⟩

/-! ## Shaper lemmas -/

theorem lookup_zip_not_mem (cols : List String) (cells : List Value)
    (k : String) (h : k ∉ cols) : (cols.zip cells).lookup k = none := by
  induction cols generalizing cells with
  | nil => rfl
  | cons c t ih =>
    cases cells with
    | nil => rfl
    | cons v vs =>
      have hbeq : (k == c) = false :=
        beq_eq_false_iff_ne.mpr (fun he => h (he ▸ List.mem_cons_self c t))
      simp only [List.zip_cons_cons, List.lookup, hbeq]
      exact ih vs (fun hk => h (List.mem_cons_of_mem _ hk))

theorem lookup_append_right (l1 l2 : List (String × Value)) (k : String)
    (h : l1.lookup k = none) : (l1 ++ l2).lookup k = l2.lookup k := by
  induction l1 with
  | nil => rfl
  | cons p t ih =>
    by_cases hb : (k == p.1) = true
    · simp [List.lookup, hb] at h
    · have hb' : (k == p.1) = false := by
        cases hbe : (k == p.1)
        · rfl
        · exact absurd hbe hb
      simp only [List.lookup, hb'] at h
      simp only [List.cons_append, List.lookup, hb']
      exact ih h

theorem lookup_zip_replace (cols : List String) (cells : List Value)
    (k : String) (lbl : Value) (hlen : cells.length = cols.length)
    (hk : k ∈ cols) :
    (cols.zip ((cols.zip cells).map
      (fun cv => if cv.1 = k then lbl else cv.2))).lookup k = some lbl := by
  induction cols generalizing cells with
  | nil => cases hk
  | cons c t ih =>
    cases cells with
    | nil => simp at hlen
    | cons v vs =>
      by_cases hkc : k = c
      · subst hkc
        have hbeq : (k == k) = true := beq_iff_eq.mpr rfl
        simp [List.zip_cons_cons, List.lookup, hbeq]
      · have hbeq : (k == c) = false := beq_eq_false_iff_ne.mpr hkc
        have hmem : k ∈ t := by
          rcases List.mem_cons.mp hk with h' | h'
          · exact absurd h' hkc
          · exact h'
        have hcne : ¬(c = k) := fun he => hkc he.symm
        simp only [List.zip_cons_cons, List.map_cons, if_neg hcne, List.lookup, hbeq]
        exact ih vs (by simpa using hlen) hmem

theorem lookupCell_labeledRow (common : List String) (lbl : Value)
    (cells : List Value) (hlen : cells.length = common.length) :
    lookupCell (if "GDM" ∈ common then common else common ++ ["GDM"])
      (labeledRow common lbl cells) "GDM" = some lbl := by
  unfold lookupCell labeledRow
  by_cases h : "GDM" ∈ common
  · rw [if_pos h, if_pos h]
    exact lookup_zip_replace common cells "GDM" lbl hlen h
  · rw [if_neg h, if_neg h]
    rw [List.zip_append hlen.symm]
    rw [lookup_append_right _ _ _ (lookup_zip_not_mem common cells _ h)]
    rfl

theorem rows_length_cleanSheet (s : Sheet) :
    (cleanSheet s).rows.length = s.rows.length := by
  simp [cleanSheet, removeListedCols, dropUnnamed, selectColsBy, stripColNames]

theorem rows_length_addTreatment (s : Sheet) :
    (addTreatment s).rows.length = s.rows.length := by
  unfold addTreatment
  split_ifs <;> simp

theorem length_reindexRow (cols common : List String) (row : List Value) :
    (reindexRow cols common row).length = common.length := by
  simp [reindexRow]

/-! ## Shaper claim theorems -/

/-- C8.  The shaped output has `|GDM| + |NGDM|` rows; it is exactly the
transformed NGDM rows followed by the transformed GDM rows, each block in
its sheet's original row order; every row from the NGDM sheet carries
label `GDM = 0` and every row from the GDM sheet carries label `GDM = 1`. -/
theorem shaper_rows_and_labels (g n : Sheet) :
    (shapeSheets g n).rows.length = g.rows.length + n.rows.length ∧
    (shapeSheets g n).rows =
      (addTreatment (cleanSheet n)).rows.map (fun row =>
        labeledRow (commonCols (cleanSheet g) (addTreatment (cleanSheet n)))
          (.num 0)
          (reindexRow (addTreatment (cleanSheet n)).cols
            (commonCols (cleanSheet g) (addTreatment (cleanSheet n))) row))
      ++ (cleanSheet g).rows.map (fun row =>
        labeledRow (commonCols (cleanSheet g) (addTreatment (cleanSheet n)))
          (.num 1)
          (reindexRow (cleanSheet g).cols
            (commonCols (cleanSheet g) (addTreatment (cleanSheet n))) row)) ∧
    (∀ i : ℕ, i < n.rows.length → ∃ row : List Value,
      (shapeSheets g n).rows[i]? = some row ∧
      lookupCell (shapeSheets g n).cols row "GDM" = some (.num 0)) ∧
    (∀ i : ℕ, i < g.rows.length → ∃ row : List Value,
      (shapeSheets g n).rows[n.rows.length + i]? = some row ∧
      lookupCell (shapeSheets g n).cols row "GDM" = some (.num 1)) := by
  set g1 := cleanSheet g with hg1
  set n2 := addTreatment (cleanSheet n) with hn2
  set common := commonCols g1 n2 with hcommon
  have hrows : (shapeSheets g n).rows =
      n2.rows.map (fun row => labeledRow common (.num 0) (reindexRow n2.cols common row))
      ++ g1.rows.map (fun row => labeledRow common (.num 1) (reindexRow g1.cols common row)) := by
    simp [shapeSheets, concatSheets, setGDM, reindexSheet, List.map_map,
      Function.comp, ← hg1, ← hn2, ← hcommon]
    rfl
  have hcols : (shapeSheets g n).cols =
      if "GDM" ∈ common then common else common ++ ["GDM"] := by
    simp [shapeSheets, concatSheets, setGDM, reindexSheet, ← hg1, ← hn2, ← hcommon]
  have hlenn : n2.rows.length = n.rows.length := by
    rw [hn2, rows_length_addTreatment, rows_length_cleanSheet]
  have hleng : g1.rows.length = g.rows.length := by
    rw [hg1, rows_length_cleanSheet]
  refine ⟨?_, hrows, fun i hi => ?_, fun i hi => ?_⟩
  · rw [hrows]
    simp [hlenn, hleng]
    omega
  · have hi2 : i < (n2.rows.map (fun row =>
        labeledRow common (.num 0) (reindexRow n2.cols common row))).length := by
      simpa [hlenn] using hi
    refine ⟨labeledRow common (.num 0) (reindexRow n2.cols common
      (n2.rows.get ⟨i, by simpa [hlenn] using hi⟩)), ?_, ?_⟩
    · rw [hrows, List.getElem?_append_left hi2, List.getElem?_map,
        List.getElem?_eq_getElem (by simpa [hlenn] using hi)]
      rfl
    · rw [hcols]
      exact lookupCell_labeledRow common _ _ (length_reindexRow _ _ _)
  · have hskip : (n2.rows.map (fun row =>
        labeledRow common (.num 0) (reindexRow n2.cols common row))).length
        ≤ n.rows.length + i := by
      simp [hlenn]
    refine ⟨labeledRow common (.num 1) (reindexRow g1.cols common
      (g1.rows.get ⟨i, by simpa [hleng] using hi⟩)), ?_, ?_⟩
    · rw [hrows, List.getElem?_append_right hskip]
      have hidx : n.rows.length + i -
          (n2.rows.map (fun row =>
            labeledRow common (.num 0) (reindexRow n2.cols common row))).length = i := by
        simp [hlenn]
      rw [hidx, List.getElem?_map, List.getElem?_eq_getElem (by simpa [hleng] using hi)]
      rfl
    · rw [hcols]
      exact lookupCell_labeledRow common _ _ (length_reindexRow _ _ _)

/-- Witness for C8: on the concrete sheets `wGdm` (2 rows) and `wNgdm`
(1 row), the first output row is labelled 0 and the row after the NGDM
block is labelled 1. -/
theorem shaper_rows_and_labels_witness :
    (∃ row : List Value, (shapeSheets wGdm wNgdm).rows[0]? = some row ∧
      lookupCell (shapeSheets wGdm wNgdm).cols row "GDM" = some (.num 0)) ∧
    (∃ row : List Value,
      (shapeSheets wGdm wNgdm).rows[wNgdm.rows.length + 0]? = some row ∧
      lookupCell (shapeSheets wGdm wNgdm).cols row "GDM" = some (.num 1)) :=
  ⟨(shaper_rows_and_labels wGdm wNgdm).2.2.1 0 (by decide),
   (shaper_rows_and_labels wGdm wNgdm).2.2.2 0 (by decide)⟩

/-- C9.  The shaper returns `False` without raising on a missing input
file; any read/processing error is caught and surfaces as `False`; and
whenever it returns `False`, no output CSV was produced by that
invocation. -/
theorem shaper_failure_policy :
    (process_gdm_data .missing).success = false ∧
    (∀ e : String, (process_gdm_data (.readError e)).success = false) ∧
    (∀ inp : ShaperInput, (process_gdm_data inp).success = false →
      (process_gdm_data inp).output = none) := by
  refine ⟨rfl, fun e => rfl, fun inp h => ?_⟩
  cases inp with
  | missing => rfl
  | readError e => rfl
  | sheets gdm ngdm => exact absurd h (by simp [process_gdm_data])

/-- Witness for C9: a missing-file invocation returns `False` and produced
no output file. -/
theorem shaper_failure_policy_witness :
    (process_gdm_data .missing).output = none :=
  shaper_failure_policy.2.2 .missing rfl

end GlucoTwin
